import Mathlib

/-!
Shallow embedding of the core of `autofishbot_rs` (an automation bot for a
chat-based fishing game) together with proofs checking the natural-language
specification against the code.

Conventions:
* Rust `f64` values are modelled as exact rationals (`ℚ`); the claims under
  scrutiny are about the algorithmic structure, not about rounding.
* Rust `u64`/`u32` values are modelled as `ℕ` (no operation in the modelled
  code comes close to wrapping).
* `HashMap` tables are modelled as total functions or association lists;
  `HashMap::values()` iteration is modelled as iteration over an explicit
  list (the iteration order of the Rust `HashMap` is arbitrary, and every
  property proved below is invariant under reordering of those lists).
* Randomness (`rand::random`, `gen_range`) is modelled by passing the random
  sample as an explicit argument.
* Time (`tokio::time::Instant`) is modelled as `ℕ` milliseconds (or seconds
  where the code works in seconds), with `Instant::now()` passed as an
  explicit `now` argument.
-/

set_option maxRecDepth 100000

namespace Autofishbot

/-! ### CooldownManager — src/engine/cooldown.rs

```rust
pub struct CooldownManager {
    base_cooldown: f64,
    current_estimate: f64,
    consecutive_hits: u32,
    success_streak: u32,
}
```
-/

structure CooldownManager where
  base_cooldown : ℚ
  current_estimate : ℚ
  consecutive_hits : ℕ
  success_streak : ℕ
deriving DecidableEq, Repr

/-- `CooldownManager::new(base_cooldown)`. -/
def CooldownManager.new (base_cooldown : ℚ) : CooldownManager :=
  { base_cooldown := base_cooldown
    current_estimate := base_cooldown
    consecutive_hits := 0
    success_streak := 0 }

/-- `CooldownManager::report_cooldown_hit(wait_time, total_cooldown)`:
increments `consecutive_hits`, zeroes `success_streak`, and raises the
estimate to the server-reported `total_cooldown` when that is positive and
larger than the current estimate (the `wait_time` branch in the source is a
no-op). -/
def CooldownManager.report_cooldown_hit (m : CooldownManager)
    (_wait_time total_cooldown : ℚ) : CooldownManager :=
  let m := { m with consecutive_hits := m.consecutive_hits + 1, success_streak := 0 }
  if 0 < total_cooldown ∧ m.current_estimate < total_cooldown then
    { m with current_estimate := total_cooldown }
  else
    m

/-- `CooldownManager::report_success()`: increments `success_streak`, zeroes
`consecutive_hits`; then, if the (updated) streak exceeds 20 and the estimate
is above the base, subtracts 0.05 from the estimate, clamps it at
`base_cooldown`, and resets the streak to 0. -/
def CooldownManager.report_success (m : CooldownManager) : CooldownManager :=
  let m := { m with success_streak := m.success_streak + 1, consecutive_hits := 0 }
  if 20 < m.success_streak ∧ m.base_cooldown < m.current_estimate then
    let est := m.current_estimate - 1/20
    let est := if est < m.base_cooldown then m.base_cooldown else est
    { m with current_estimate := est, success_streak := 0 }
  else
    m

lemma CooldownManager.report_cooldown_hit_spec (m : CooldownManager) (w t : ℚ) :
    m.report_cooldown_hit w t =
      if 0 < t ∧ m.current_estimate < t then
        { base_cooldown := m.base_cooldown, current_estimate := t,
          consecutive_hits := m.consecutive_hits + 1, success_streak := 0 }
      else
        { base_cooldown := m.base_cooldown, current_estimate := m.current_estimate,
          consecutive_hits := m.consecutive_hits + 1, success_streak := 0 } := by
  simp only [CooldownManager.report_cooldown_hit]

lemma CooldownManager.report_success_spec (m : CooldownManager) :
    m.report_success =
      if 20 < m.success_streak + 1 ∧ m.base_cooldown < m.current_estimate then
        { base_cooldown := m.base_cooldown,
          current_estimate := max m.base_cooldown (m.current_estimate - 1/20),
          consecutive_hits := 0, success_streak := 0 }
      else
        { base_cooldown := m.base_cooldown, current_estimate := m.current_estimate,
          consecutive_hits := 0, success_streak := m.success_streak + 1 } := by
  simp only [CooldownManager.report_success]
  split_ifs with h1 h2
  · congr 1
    exact (max_eq_left h2.le).symm
  · congr 1
    exact (max_eq_right (le_of_not_lt h2)).symm
  · rfl

/-- One call to the `CooldownManager` mutators. -/
inductive CdCall where
  | hit (wait_time total_cooldown : ℚ)
  | success
deriving DecidableEq, Repr

/-- Dispatch one recorded call. -/
def CooldownManager.applyCall (m : CooldownManager) : CdCall → CooldownManager
  | .hit w t => m.report_cooldown_hit w t
  | .success => m.report_success

/-- Replay a sequence of calls against a manager. -/
def CooldownManager.applyCalls (m : CooldownManager) (calls : List CdCall) : CooldownManager :=
  calls.foldl CooldownManager.applyCall m

@[simp] lemma CooldownManager.applyCalls_nil (m : CooldownManager) :
    m.applyCalls [] = m := rfl

@[simp] lemma CooldownManager.applyCalls_cons (m : CooldownManager) (c : CdCall)
    (cs : List CdCall) : m.applyCalls (c :: cs) = (m.applyCall c).applyCalls cs := rfl

lemma CooldownManager.base_applyCall (m : CooldownManager) (c : CdCall) :
    (m.applyCall c).base_cooldown = m.base_cooldown := by
  cases c with
  | hit w t =>
      rw [CooldownManager.applyCall, m.report_cooldown_hit_spec w t]
      split_ifs <;> rfl
  | success =>
      rw [CooldownManager.applyCall, m.report_success_spec]
      split_ifs <;> rfl

lemma CooldownManager.le_estimate_applyCall (m : CooldownManager) (c : CdCall)
    (h : m.base_cooldown ≤ m.current_estimate) :
    (m.applyCall c).base_cooldown ≤ (m.applyCall c).current_estimate := by
  rw [m.base_applyCall c]
  cases c with
  | hit w t =>
      rw [CooldownManager.applyCall, m.report_cooldown_hit_spec w t]
      split_ifs with hc
      · exact le_of_lt (lt_of_le_of_lt h hc.2)
      · exact h
  | success =>
      rw [CooldownManager.applyCall, m.report_success_spec]
      split_ifs with hc
      · exact le_max_left _ _
      · exact h

lemma CooldownManager.invariant_applyCalls (m : CooldownManager) (calls : List CdCall)
    (h : m.base_cooldown ≤ m.current_estimate) :
    (m.applyCalls calls).base_cooldown = m.base_cooldown ∧
      (m.applyCalls calls).base_cooldown ≤ (m.applyCalls calls).current_estimate := by
  induction calls generalizing m with
  | nil => exact ⟨rfl, h⟩
  | cons c cs ih =>
      have step := m.le_estimate_applyCall c h
      have ihh := ih (m.applyCall c) step
      rw [CooldownManager.applyCalls_cons]
      exact ⟨by rw [ihh.1, m.base_applyCall c], ihh.2⟩

/-- The concrete state of the spec example: `base = 3.5`, then
`report_hit(_, 5.0)` (estimate becomes 5.0). -/
def cooldownAfterHit : CooldownManager :=
  (CooldownManager.new (7/2)).report_cooldown_hit 0 5

/-- C4: starting from a fresh `CooldownManager`, the estimate equals the base
initially, stays at or above the base after any sequence of
`report_cooldown_hit`/`report_success` calls, and across any single call the
estimate never decreases except by the explicit clamped 0.05 decay step inside
`report_success`. -/
theorem cooldown_estimate_invariant (b : ℚ) (calls : List CdCall)
    (m : CooldownManager) (c : CdCall) :
    (CooldownManager.new b).current_estimate = b ∧
    ((CooldownManager.new b).applyCalls calls).base_cooldown = b ∧
    b ≤ ((CooldownManager.new b).applyCalls calls).current_estimate ∧
    (m.current_estimate ≤ (m.applyCall c).current_estimate ∨
      (c = .success ∧
        (m.applyCall c).current_estimate =
          max m.base_cooldown (m.current_estimate - 1/20))) := by
  have hb : (CooldownManager.new b).base_cooldown = b := rfl
  have base_le : (CooldownManager.new b).base_cooldown ≤
      (CooldownManager.new b).current_estimate := le_refl b
  have inv := (CooldownManager.new b).invariant_applyCalls calls base_le
  have hbase : ((CooldownManager.new b).applyCalls calls).base_cooldown = b :=
    inv.1.trans hb
  refine ⟨rfl, hbase, hbase.symm.trans_le inv.2, ?_⟩
  cases c with
  | hit w t =>
      left
      rw [CooldownManager.applyCall, m.report_cooldown_hit_spec w t]
      split_ifs with hc
      · exact le_of_lt hc.2
      · exact le_refl _
  | success =>
      rw [CooldownManager.applyCall, m.report_success_spec]
      split_ifs with hc
      · exact Or.inr ⟨rfl, rfl⟩
      · exact Or.inl (le_refl _)

/-- C3 counterexample: from `base = 3.5` and estimate `5.0`, twenty
consecutive `report_success()` calls leave the estimate at `5.0`, not `4.95`
(the decay fires only when the streak exceeds 20, i.e. on the 21st call). -/
theorem report_success_twenty_not_decayed :
    ((CooldownManager.report_success)^[20] cooldownAfterHit).current_estimate ≠ 99/20 := by
  have h : ((CooldownManager.report_success)^[20] cooldownAfterHit).current_estimate = 5 := by
    norm_num [cooldownAfterHit, CooldownManager.new, CooldownManager.report_cooldown_hit,
      CooldownManager.report_success, Function.iterate_succ_apply,
      Function.iterate_zero_apply]
  rw [h]
  norm_num

/-- C3 (amended): `report_success()` zeroes `consecutive_hits`; it decays the
estimate by 0.05 (clamped at the base) and resets the streak to 0 exactly when
the incremented streak exceeds 20 and the estimate is above the base, and
otherwise just increments the streak, leaving the estimate unchanged.  In the
spec scenario (base 3.5, estimate 5.0 after `report_hit(_, 5.0)`), the
estimate is still 5.0 after 20 consecutive successes and reaches 4.95 on the
21st. -/
theorem report_success_characterization (m : CooldownManager) :
    (m.report_success).consecutive_hits = 0 ∧
    (if 20 < m.success_streak + 1 ∧ m.base_cooldown < m.current_estimate then
        (m.report_success).success_streak = 0 ∧
        (m.report_success).current_estimate =
          max m.base_cooldown (m.current_estimate - 1/20)
      else
        (m.report_success).success_streak = m.success_streak + 1 ∧
        (m.report_success).current_estimate = m.current_estimate) ∧
    ((CooldownManager.report_success)^[20] cooldownAfterHit).current_estimate = 5 ∧
    ((CooldownManager.report_success)^[21] cooldownAfterHit).current_estimate = 99/20 := by
  refine ⟨?_, ?_, ?_, ?_⟩
  · rw [m.report_success_spec]
    split_ifs <;> rfl
  · rw [m.report_success_spec]
    split_ifs with hc
    · exact ⟨rfl, rfl⟩
    · exact ⟨rfl, rfl⟩
  · norm_num [cooldownAfterHit, CooldownManager.new, CooldownManager.report_cooldown_hit,
      CooldownManager.report_success, Function.iterate_succ_apply,
      Function.iterate_zero_apply]
  · norm_num [cooldownAfterHit, CooldownManager.new, CooldownManager.report_cooldown_hit,
      CooldownManager.report_success, Function.iterate_succ_apply,
      Function.iterate_zero_apply]

/-! ### Static game data — src/engine/game_data.rs

The Rust code stores the tables in `HashMap`s built by `lazy_static`;
`ROD_DATA.values()` / `BOAT_DATA.values()` iterate in arbitrary order, so the
rod and boat tables are modelled as lists (the insertion order is used, and
every property proved about them is order-invariant).  `BIOME_DATA` holds an
entry for all six `Biome` keys, so it is modelled as a total function (the
`unwrap_or_else(River)` fallback in the source is unreachable). -/

inductive Biome where
  | River | Volcanic | Ocean | Sky | Space | Alien
deriving DecidableEq

/-- `Rod` — the `biome_multipliers` map is carried for fidelity but is not
read by the optimizer. -/
structure Rod where
  name : String
  price : ℕ
  expected_fish : ℚ
  treasure_chance : ℚ
  treasure_quality_bonus : ℚ
  biome_multipliers : List (Biome × ℚ)
deriving DecidableEq

structure Boat where
  name : String
  price : ℕ
  cooldown_reduction : ℚ
deriving DecidableEq

/-- Biome reference entry (`BiomeStats` in game_data.rs; renamed to avoid the
clash with the optimizer's accumulator of the same Rust name). -/
structure BiomeInfo where
  name : String
  cooldown_penalty : ℚ
  catch_rate : ℚ
  base_cooldown : ℚ
deriving DecidableEq

/-- The `mk_rod` closure of the `ROD_DATA` initializer:
`expected_fish = (min + max) / 2`, empty `biome_multipliers`. -/
def mk_rod (name : String) (price lo hi : ℕ) (treasure_chance quality_bonus : ℚ) : Rod :=
  { name := name, price := price, expected_fish := ((lo : ℚ) + (hi : ℚ)) / 2
    treasure_chance := treasure_chance, treasure_quality_bonus := quality_bonus
    biome_multipliers := [] }

/-- `ROD_DATA` (values, insertion order). -/
def ROD_DATA : List Rod :=
  [ mk_rod ("Plastic Rod") 0 4 10 (5/100) 0
  , mk_rod ("Improved Rod") 500 5 10 (5/100) 0
  , mk_rod ("Steel Rod") 8000 5 8 (5/100) 0
  , mk_rod ("Fiberglass Rod") 50000 7 10 (5/100) 0
  , mk_rod ("Heavy Rod") 100000 6 9 (85/1000) (5/100)
  , mk_rod ("Alloy Rod") 250000 4 13 (5/100) 0
  , mk_rod ("Lava Rod") 1000000 7 11 (5/100) 0
  , mk_rod ("Magma Rod") 10000000 10 13 (5/100) 0
  , mk_rod ("Oceanium Rod") 75000000 11 14 (5/100) 0
  , mk_rod ("Golden Rod") 120000000 4 6 (13/100) 0
  , mk_rod ("Superium Rod") 250000000 8 18 (55/1000) 0
  , mk_rod ("Infinity Rod") 1000000000 15 18 (6/100) 0
  , mk_rod ("Floating Rod") 50000000000 15 30 (65/1000) 0
  , mk_rod ("Sky Rod") 250000000000 30 34 (67/1000) 0
  , mk_rod ("Meteor Rod") 500000000000 20 24 (15/100) (30/100)
  , mk_rod ("Space Rod") 1000000000000 33 37 (68/1000) 0
  , mk_rod ("Alien Rod") 5000000000000 37 42 (7/100) (1/10)
  , { mk_rod ("Supporter Rod") 0 7 10 (65/1000) (1/10) with
        biome_multipliers :=
          [ (.River, 1), (.Volcanic, 12/10), (.Ocean, 14/10)
          , (.Sky, 2), (.Space, 32/10), (.Alien, 4) ] } ]

/-- The `mk_boat` closure of the `BOAT_DATA` initializer: every boat has
`cooldown_reduction = 0.25`. -/
def mk_boat (name : String) (price : ℕ) : Boat :=
  { name := name, price := price, cooldown_reduction := 1/4 }

/-- `BOAT_DATA` (values, insertion order). -/
def BOAT_DATA : List Boat :=
  [ mk_boat ("Rowboat") 5000
  , mk_boat ("Fishing Boat") 25000
  , mk_boat ("Speedboat") 100000
  , mk_boat ("Pontoon") 250000
  , mk_boat ("Sailboat") 1000000
  , mk_boat ("Yacht") 20000000
  , mk_boat ("Luxury Yacht") 100000000
  , mk_boat ("Cruise Ship") 500000000
  , mk_boat ("Gold Boat") 2500000000
  , mk_boat ("Sky Cruiser") 10000000000
  , mk_boat ("Satellite") 50000000000
  , mk_boat ("Space Shuttle") 250000000000
  , mk_boat ("Cruiser") 1000000000000
  , mk_boat ("Alien Raft") 2500000000000
  , mk_boat ("Alien Submarine") 5000000000000 ]

/-- `BIOME_DATA`, as a total lookup on the six biomes. -/
def BIOME_DATA : Biome → BiomeInfo
  | .River => { name := "River", cooldown_penalty := 0, catch_rate := 1, base_cooldown := 3 }
  | .Volcanic => { name := "Volcanic", cooldown_penalty := 1/2, catch_rate := 60/100, base_cooldown := 3 }
  | .Ocean => { name := "Ocean", cooldown_penalty := 1, catch_rate := 30/100, base_cooldown := 3 }
  | .Sky => { name := "Sky", cooldown_penalty := 2, catch_rate := 12/100, base_cooldown := 3 }
  | .Space => { name := "Space", cooldown_penalty := 3, catch_rate := 65/1000, base_cooldown := 3 }
  | .Alien => { name := "Alien", cooldown_penalty := 4, catch_rate := 3/100, base_cooldown := 3 }

/-- The key set of `BIOME_DATA`, as iterated by `BIOME_DATA.iter()` in
`solve_next_move` (order arbitrary; insertion order used). -/
def BIOME_LIST : List Biome := [.River, .Volcanic, .Ocean, .Sky, .Space, .Alien]

/-! ### Profile charm/pet accessors

`Optimizer::calculate_metrics` calls `profile.get_charm_bonus(CharmType::…)`
and `profile.get_pet_mults()`. -/

/-- Modelled from the spec: the `CharmType` enum and the accessors
`Profile::get_charm_bonus` / `Profile::get_pet_mults` are referenced from
src/engine/optimizer.rs but their definitions are not under src/ (the
`Profile` in src/engine/profile.rs stores raw parsed strings only).  We model
the profile as directly carrying the three charm bonuses the optimizer reads
(spec §4.4: `sell_bonus`, `catch_bonus`, `haste_bonus`) plus the pet
catch/xp multipliers; only the constructors the optimizer uses are kept. -/
inductive CharmType where
  | Marketing | Quantity | Haste
deriving DecidableEq

/-- Modelled from the spec: the bonus fields read by the optimizer (see
`CharmType`). -/
structure Profile where
  marketing_bonus : ℚ
  quantity_bonus : ℚ
  haste_bonus : ℚ
  pet_catch : ℚ
  pet_xp : ℚ
deriving DecidableEq

/-- Modelled from the spec: `Profile::get_charm_bonus` (see `CharmType`). -/
def Profile.get_charm_bonus (p : Profile) : CharmType → ℚ
  | .Marketing => p.marketing_bonus
  | .Quantity => p.quantity_bonus
  | .Haste => p.haste_bonus

/-- Modelled from the spec: `Profile::get_pet_mults` (see `CharmType`). -/
def Profile.get_pet_mults (p : Profile) : ℚ × ℚ :=
  (p.pet_catch, p.pet_xp)

/-! ### Optimizer — src/engine/optimizer.rs -/

/-- Per-biome learned statistics (`BiomeStats` in optimizer.rs). -/
structure Optimizer.BiomeStats where
  total_catches : ℕ
  total_gold : ℕ
  total_xp : ℕ
  avg_gold_per_fish : ℚ
  avg_xp_per_fish : ℚ
deriving DecidableEq

/-- The optimizer's state: `biome_knowledge: HashMap<Biome, BiomeStats>`,
modelled as a partial lookup function. -/
structure Optimizer where
  biome_knowledge : Biome → Option Optimizer.BiomeStats

inductive ActionType where
  | BuyRod
  | BuyBoat
  | Travel
  | BuyUpgrade
  | Sell
  | Wait
  | Coinflip (amount : ℕ) (reason : String)
deriving DecidableEq

structure Recommendation where
  action : ActionType
  target_name : String
  cost : ℕ
  roi_seconds : ℚ
deriving DecidableEq

/-- `Optimizer::calculate_metrics`: the income-rate ("GPS") formula.  The
`avg_gold_per_fish` prior is 15.0 when the biome has no stats (or a zero
average); `total_cd` is floored at 2.0 via `.max(2.0)`. -/
def Optimizer.calculate_metrics (o : Optimizer) (rod : Rod) (boat : Boat)
    (biome : Biome) (profile : Profile) : ℚ :=
  let avg_val : ℚ :=
    match o.biome_knowledge biome with
    | some s => s.avg_gold_per_fish
    | none => 15
  let avg_val := if avg_val = 0 then 15 else avg_val
  let biome_data := BIOME_DATA biome
  let base_cd := biome_data.base_cooldown
  let sell_bonus := profile.get_charm_bonus .Marketing
  let catch_bonus := profile.get_charm_bonus .Quantity
  let cooldown_bonus := profile.get_charm_bonus .Haste
  let pet_catch := (profile.get_pet_mults).1
  let total_val := avg_val * (1 + sell_bonus)
  let total_fish := rod.expected_fish * biome_data.catch_rate * (1 + catch_bonus + pet_catch)
  let boat_cd := boat.cooldown_reduction
  let haste_reduction := base_cd * cooldown_bonus
  let total_cd := max (base_cd + biome_data.cooldown_penalty - boat_cd - haste_reduction) 2
  (total_fish * total_val) / total_cd

/-- `Optimizer::evaluate_risk_asymmetry(current_gold, target_cost, gps)`:
propose betting exactly the shortfall when grinding it would take more than
four hours and the shortfall itself is affordable to stake. -/
def Optimizer.evaluate_risk_asymmetry (_self : Optimizer)
    (current_gold target_cost : ℕ) (gps : ℚ) : Option ℕ :=
  if gps ≤ 0 then none
  else if target_cost ≤ current_gold then none
  else
    let time_to_grind : ℚ := ((target_cost - current_gold : ℕ) : ℚ) / gps
    let four_hours : ℚ := 4 * 3600
    if four_hours < time_to_grind then
      let needed := target_cost - current_gold
      if current_gold < needed then none
      else some needed
    else none

/-- `Optimizer::solve_next_move`: evaluate every rod priced above the current
rod, every boat priced above the current boat, and every other biome; keep
only candidates whose recomputed rate beats the current rate; attach a
coinflip "bridge bet" recommendation next to a purchase candidate when
`evaluate_risk_asymmetry` proposes one; sort ascending by `roi_seconds`.
(The `UPGRADE_DATA` loop in the source has an empty body and is omitted; the
`f64::INFINITY` fallback for a non-positive gain is unreachable — the guard
ensures `gain > 0` — and is modelled as 0.) -/
def Optimizer.solve_next_move (o : Optimizer) (current_rod : Rod) (current_boat : Boat)
    (current_biome : Biome) (profile : Profile) (current_gold : ℕ) : List Recommendation :=
  let current_gps := o.calculate_metrics current_rod current_boat current_biome profile
  let rodRecs := ROD_DATA.flatMap (fun rod =>
    if current_rod.price < rod.price then
      let new_gps := o.calculate_metrics rod current_boat current_biome profile
      if current_gps < new_gps then
        let cost := rod.price
        let gain := new_gps - current_gps
        let roi := if 0 < gain then (cost : ℚ) / gain else 0
        (match o.evaluate_risk_asymmetry current_gold cost current_gps with
          | some bet =>
              [ { action := .Coinflip bet ("Bridge gap for " ++ rod.name)
                , target_name := "Heads", cost := 0, roi_seconds := 0 } ]
          | none => []) ++
        [ { action := .BuyRod, target_name := rod.name, cost := cost, roi_seconds := roi } ]
      else []
    else [])
  let boatRecs := BOAT_DATA.flatMap (fun boat =>
    if current_boat.price < boat.price then
      let new_gps := o.calculate_metrics current_rod boat current_biome profile
      if current_gps < new_gps then
        let cost := boat.price
        let gain := new_gps - current_gps
        let roi := if 0 < gain then (cost : ℚ) / gain else 0
        (match o.evaluate_risk_asymmetry current_gold cost current_gps with
          | some bet =>
              [ { action := .Coinflip bet ("Bridge gap for " ++ boat.name)
                , target_name := "Heads", cost := 0, roi_seconds := 0 } ]
          | none => []) ++
        [ { action := .BuyBoat, target_name := boat.name, cost := cost, roi_seconds := roi } ]
      else []
    else [])
  let travelRecs := BIOME_LIST.flatMap (fun biome =>
    if biome ≠ current_biome then
      let new_gps := o.calculate_metrics current_rod current_boat biome profile
      if current_gps < new_gps then
        [ { action := .Travel, target_name := (BIOME_DATA biome).name
          , cost := 0, roi_seconds := 0 } ]
      else []
    else [])
  (rodRecs ++ boatRecs ++ travelRecs).mergeSort
    (fun a b => decide (a.roi_seconds ≤ b.roi_seconds))

/-- C6: for a positive income rate, `evaluate_risk_asymmetry` proposes a
stake `s` exactly when the balance is short of the target, grinding the
shortfall would take more than 14400 seconds, the shortfall is affordable to
stake, and `s` is exactly the shortfall. -/
theorem risk_bridge_iff (o : Optimizer) (current_gold target_cost : ℕ) (gps : ℚ)
    (s : ℕ) (hg : 0 < gps) :
    o.evaluate_risk_asymmetry current_gold target_cost gps = some s ↔
      (current_gold < target_cost ∧
        14400 < ((target_cost - current_gold : ℕ) : ℚ) / gps ∧
        target_cost - current_gold ≤ current_gold ∧
        s = target_cost - current_gold) := by
  rw [Optimizer.evaluate_risk_asymmetry]
  rw [if_neg (not_le.mpr hg)]
  by_cases hlt : target_cost ≤ current_gold
  · rw [if_pos hlt]
    simp only [false_iff, reduceCtorEq]
    intro h
    exact absurd h.1 (not_lt.mpr hlt)
  · rw [if_neg hlt]
    push_neg at hlt
    by_cases htime : (4 * 3600 : ℚ) < ((target_cost - current_gold : ℕ) : ℚ) / gps
    · rw [if_pos htime]
      by_cases haff : current_gold < target_cost - current_gold
      · rw [if_pos haff]
        simp only [false_iff, reduceCtorEq]
        intro h
        exact absurd h.2.2.1 (not_le.mpr haff)
      · rw [if_neg haff]
        push_neg at haff
        constructor
        · intro h
          refine ⟨hlt, by norm_num at htime ⊢; exact htime, haff, (Option.some.injEq _ _ ▸ h).symm⟩
        · intro h
          rw [h.2.2.2]
    · rw [if_neg htime]
      simp only [false_iff, reduceCtorEq]
      intro h
      apply htime
      norm_num
      exact h.2.1

/-- Witness for `risk_bridge_iff`: with balance 100, target 200 and rate
1/1000 gold per second, the shortfall 100 is proposed as the stake. -/
theorem risk_bridge_iff_witness :
    (0 : ℚ) < 1/1000 ∧
      (({ biome_knowledge := fun _ => none } : Optimizer).evaluate_risk_asymmetry
          100 200 (1/1000) = some 100 ↔
        (100 < 200 ∧ 14400 < ((200 - 100 : ℕ) : ℚ) / (1/1000) ∧
          200 - 100 ≤ 100 ∧ 100 = 200 - 100)) :=
  ⟨by norm_num,
   risk_bridge_iff { biome_knowledge := fun _ => none } 100 200 (1/1000) 100 (by norm_num)⟩

/-- Every element of `solve_next_move`'s output is one of: a rod purchase for
a rod priced above the current one whose recomputed rate beats the current
rate (with `roi = cost / gain`), the analogous boat purchase, a travel
recommendation for a strictly better other biome (cost 0, roi 0), or a
coinflip bridge-bet (cost 0, roi 0). -/
lemma solve_next_move_mem_spec (o : Optimizer) (cr : Rod) (cb : Boat) (cbio : Biome)
    (p : Profile) (gold : ℕ) (r : Recommendation)
    (hr : r ∈ o.solve_next_move cr cb cbio p gold) :
    (∃ rod, rod ∈ ROD_DATA ∧ cr.price < rod.price ∧
        o.calculate_metrics cr cb cbio p < o.calculate_metrics rod cb cbio p ∧
        r = { action := .BuyRod, target_name := rod.name, cost := rod.price,
              roi_seconds := (rod.price : ℚ) /
                (o.calculate_metrics rod cb cbio p - o.calculate_metrics cr cb cbio p) }) ∨
    (∃ boat, boat ∈ BOAT_DATA ∧ cb.price < boat.price ∧
        o.calculate_metrics cr cb cbio p < o.calculate_metrics cr boat cbio p ∧
        r = { action := .BuyBoat, target_name := boat.name, cost := boat.price,
              roi_seconds := (boat.price : ℚ) /
                (o.calculate_metrics cr boat cbio p - o.calculate_metrics cr cb cbio p) }) ∨
    (∃ biome, biome ∈ BIOME_LIST ∧ biome ≠ cbio ∧
        o.calculate_metrics cr cb cbio p < o.calculate_metrics cr cb biome p ∧
        r = { action := .Travel, target_name := (BIOME_DATA biome).name,
              cost := 0, roi_seconds := 0 }) ∨
    (∃ bet reason,
        r = { action := .Coinflip bet reason, target_name := "Heads",
              cost := 0, roi_seconds := 0 }) := by
  simp only [Optimizer.solve_next_move, List.mem_mergeSort, List.mem_append,
    List.mem_flatMap] at hr
  rcases hr with (⟨rod, hrod, hmem⟩ | ⟨boat, hboat, hmem⟩) | ⟨biome, hbiome, hmem⟩
  · split at hmem
    · next hprice =>
      split at hmem
      · next hgps =>
        rw [List.mem_append] at hmem
        rcases hmem with hco | hbuy
        · split at hco
          · next bet hbet =>
            simp only [List.mem_singleton] at hco
            subst hco
            exact Or.inr (Or.inr (Or.inr ⟨bet, _, rfl⟩))
          · simp only [List.not_mem_nil] at hco
        · simp only [List.mem_singleton] at hbuy
          subst hbuy
          have hgain : (0:ℚ) < o.calculate_metrics rod cb cbio p -
              o.calculate_metrics cr cb cbio p := sub_pos.mpr hgps
          refine Or.inl ⟨rod, hrod, hprice, hgps, ?_⟩
          rw [if_pos hgain]
      · simp only [List.not_mem_nil] at hmem
    · simp only [List.not_mem_nil] at hmem
  · split at hmem
    · next hprice =>
      split at hmem
      · next hgps =>
        rw [List.mem_append] at hmem
        rcases hmem with hco | hbuy
        · split at hco
          · next bet hbet =>
            simp only [List.mem_singleton] at hco
            subst hco
            exact Or.inr (Or.inr (Or.inr ⟨bet, _, rfl⟩))
          · simp only [List.not_mem_nil] at hco
        · simp only [List.mem_singleton] at hbuy
          subst hbuy
          have hgain : (0:ℚ) < o.calculate_metrics cr boat cbio p -
              o.calculate_metrics cr cb cbio p := sub_pos.mpr hgps
          refine Or.inr (Or.inl ⟨boat, hboat, hprice, hgps, ?_⟩)
          rw [if_pos hgain]
      · simp only [List.not_mem_nil] at hmem
    · simp only [List.not_mem_nil] at hmem
  · split at hmem
    · next hne =>
      split at hmem
      · next hgps =>
        simp only [List.mem_singleton] at hmem
        subst hmem
        exact Or.inr (Or.inr (Or.inl ⟨biome, hbiome, hne, hgps, rfl⟩))
      · simp only [List.not_mem_nil] at hmem
    · simp only [List.not_mem_nil] at hmem

/-- The output of `solve_next_move` is sorted ascending by `roi_seconds`. -/
lemma solve_next_move_sorted (o : Optimizer) (cr : Rod) (cb : Boat) (cbio : Biome)
    (p : Profile) (gold : ℕ) :
    List.Pairwise (fun a b : Recommendation => a.roi_seconds ≤ b.roi_seconds)
      (o.solve_next_move cr cb cbio p gold) := by
  have htrans : ∀ a b c : Recommendation,
      decide (a.roi_seconds ≤ b.roi_seconds) = true →
      decide (b.roi_seconds ≤ c.roi_seconds) = true →
      decide (a.roi_seconds ≤ c.roi_seconds) = true := by
    intro a b c h1 h2
    simp only [decide_eq_true_eq] at h1 h2 ⊢
    exact le_trans h1 h2
  have htotal : ∀ a b : Recommendation,
      (decide (a.roi_seconds ≤ b.roi_seconds) ||
        decide (b.roi_seconds ≤ a.roi_seconds)) = true := by
    intro a b
    simp only [Bool.or_eq_true, decide_eq_true_eq]
    exact le_total _ _
  rw [Optimizer.solve_next_move]
  exact (List.sorted_mergeSort htrans htotal _).imp (fun h => by simpa using h)

/-- C5: every recommendation returned by `solve_next_move` whose action is a
rod purchase, boat purchase, or travel move comes from a candidate whose
recomputed rate strictly exceeds the current rate; purchases carry
`roi_seconds = cost / (new rate − current rate)` exactly, travels carry cost
0 and roi 0, and the returned list is sorted ascending by `roi_seconds`. -/
theorem optimizer_candidates_sound (o : Optimizer) (current_rod : Rod)
    (current_boat : Boat) (current_biome : Biome) (profile : Profile)
    (current_gold : ℕ) (r : Recommendation)
    (hr : r ∈ o.solve_next_move current_rod current_boat current_biome profile current_gold) :
    (r.action = .BuyRod →
        ∃ rod, rod ∈ ROD_DATA ∧ current_rod.price < rod.price ∧
          o.calculate_metrics current_rod current_boat current_biome profile <
            o.calculate_metrics rod current_boat current_biome profile ∧
          r.cost = rod.price ∧
          r.roi_seconds = (rod.price : ℚ) /
            (o.calculate_metrics rod current_boat current_biome profile -
              o.calculate_metrics current_rod current_boat current_biome profile)) ∧
    (r.action = .BuyBoat →
        ∃ boat, boat ∈ BOAT_DATA ∧ current_boat.price < boat.price ∧
          o.calculate_metrics current_rod current_boat current_biome profile <
            o.calculate_metrics current_rod boat current_biome profile ∧
          r.cost = boat.price ∧
          r.roi_seconds = (boat.price : ℚ) /
            (o.calculate_metrics current_rod boat current_biome profile -
              o.calculate_metrics current_rod current_boat current_biome profile)) ∧
    (r.action = .Travel →
        ∃ biome, biome ∈ BIOME_LIST ∧ biome ≠ current_biome ∧
          o.calculate_metrics current_rod current_boat current_biome profile <
            o.calculate_metrics current_rod current_boat biome profile ∧
          r.cost = 0 ∧ r.roi_seconds = 0) ∧
    List.Pairwise (fun a b : Recommendation => a.roi_seconds ≤ b.roi_seconds)
      (o.solve_next_move current_rod current_boat current_biome profile current_gold) := by
  have hcases := solve_next_move_mem_spec o current_rod current_boat current_biome
    profile current_gold r hr
  refine ⟨?_, ?_, ?_, solve_next_move_sorted o current_rod current_boat current_biome
    profile current_gold⟩
  · intro hact
    rcases hcases with ⟨rod, h1, h2, h3, hre⟩ | ⟨boat, h1, h2, h3, hre⟩ |
      ⟨biome, h1, h2, h3, hre⟩ | ⟨bet, reason, hre⟩ <;> subst hre
    · exact ⟨rod, h1, h2, h3, rfl, rfl⟩
    · simp only [] at hact
      cases hact
    · cases hact
    · cases hact
  · intro hact
    rcases hcases with ⟨rod, h1, h2, h3, hre⟩ | ⟨boat, h1, h2, h3, hre⟩ |
      ⟨biome, h1, h2, h3, hre⟩ | ⟨bet, reason, hre⟩ <;> subst hre
    · cases hact
    · exact ⟨boat, h1, h2, h3, rfl, rfl⟩
    · cases hact
    · cases hact
  · intro hact
    rcases hcases with ⟨rod, h1, h2, h3, hre⟩ | ⟨boat, h1, h2, h3, hre⟩ |
      ⟨biome, h1, h2, h3, hre⟩ | ⟨bet, reason, hre⟩ <;> subst hre
    · cases hact
    · cases hact
    · exact ⟨biome, h1, h2, h3, rfl, rfl⟩
    · cases hact

/-- A profile with all charm and pet bonuses zero. -/
def zeroProfile : Profile :=
  { marketing_bonus := 0, quantity_bonus := 0, haste_bonus := 0
    pet_catch := 0, pet_xp := 0 }

/-- Optimizer state for the concrete witness runs: every biome has an average
gold of 1 except Volcanic (100). -/
def witnessOptimizer : Optimizer :=
  { biome_knowledge := fun b =>
      some { total_catches := 1, total_gold := 1, total_xp := 0
             avg_gold_per_fish := if b = .Volcanic then 100 else 1
             avg_xp_per_fish := 0 } }

/-- The top-priced rod (no rod candidate survives the price filter). -/
def witnessRod : Rod := mk_rod ("Alien Rod") 5000000000000 37 42 (7/100) (1/10)

/-- The top-priced boat (no boat candidate survives the price filter). -/
def witnessBoat : Boat := mk_boat ("Alien Submarine") 5000000000000

/-- In the witness configuration the only recommendation is travelling to
Volcanic. -/
def witnessRec : Recommendation :=
  { action := .Travel, target_name := "Volcanic", cost := 0, roi_seconds := 0 }

lemma witness_solve_next_move :
    witnessOptimizer.solve_next_move witnessRod witnessBoat .River zeroProfile 0 =
      [witnessRec] := by
  norm_num [Optimizer.solve_next_move, Optimizer.calculate_metrics,
    ROD_DATA, BOAT_DATA, BIOME_LIST, BIOME_DATA, mk_rod, mk_boat,
    witnessOptimizer, witnessRod, witnessBoat, witnessRec, zeroProfile,
    Profile.get_charm_bonus, Profile.get_pet_mults, max_def]
  simp only [reduceCtorEq, if_false]
  norm_num [List.mergeSort_singleton, witnessRec]

/-- Witness for `optimizer_candidates_sound` at a concrete configuration in
which the single returned recommendation is a travel move to Volcanic. -/
theorem optimizer_candidates_sound_witness :
    witnessRec ∈ witnessOptimizer.solve_next_move witnessRod witnessBoat .River
        zeroProfile 0 ∧
    ((witnessRec.action = .Travel →
        ∃ biome, biome ∈ BIOME_LIST ∧ biome ≠ .River ∧
          witnessOptimizer.calculate_metrics witnessRod witnessBoat .River zeroProfile <
            witnessOptimizer.calculate_metrics witnessRod witnessBoat biome zeroProfile ∧
          witnessRec.cost = 0 ∧ witnessRec.roi_seconds = 0) ∧
      List.Pairwise (fun a b : Recommendation => a.roi_seconds ≤ b.roi_seconds)
        (witnessOptimizer.solve_next_move witnessRod witnessBoat .River zeroProfile 0)) := by
  have hmem : witnessRec ∈ witnessOptimizer.solve_next_move witnessRod witnessBoat
      .River zeroProfile 0 := by
    rw [witness_solve_next_move]
    exact List.mem_singleton.mpr rfl
  have h := optimizer_candidates_sound witnessOptimizer witnessRod witnessBoat .River
    zeroProfile 0 witnessRec hmem
  exact ⟨hmem, h.2.2.1, h.2.2.2⟩

/-! ### Scheduler — src/engine/scheduler.rs

`Scheduler::process` is modelled as a pure function from the scheduler state,
the current instant `now` (milliseconds) and the random sample `rand`
(`rand::random::<u64>()`) to the new state plus the task it executed, if any.
The `config` field and the Discord command submissions performed for the
executed task are external I/O and are not part of the state transition.
`VecDeque::pop_front`/`push_back` traversal builds `tasks_to_run` and
`tasks_to_keep` in queue order, and `Vec::pop` takes the LAST element of
`tasks_to_run`. -/

inductive TaskType where
  | Fish
  | Daily
  | BuyBait
  | Sell
  | Profile
  | Boost (label : String)
  | Custom (name : String) (payload : Option String)
deriving DecidableEq

/-- The `serde_json::Value` payload of `Custom` is never inspected by
`process`; it is carried as an opaque `Option String`. -/
structure Task where
  task_type : TaskType
  next_run : ℕ
  interval : Option ℕ
  manual : Bool
deriving DecidableEq

structure Scheduler where
  queue : List Task
  last_action : ℕ
  global_cooldown : ℕ
deriving DecidableEq

/-- Re-enqueue entry for an executed task: `next_run = now + interval` if the
task repeats, nothing for a one-shot task. -/
def Scheduler.reschedList (task : Task) (now : ℕ) : List Task :=
  match task.interval with
  | some i => [{ task with next_run := now + i }]
  | none => []

/-- `Scheduler::process`: return unchanged while the global cooldown window
has not elapsed; otherwise partition the queue into due and not-due tasks,
execute (at most) the last due task, re-enqueue it at `now + interval` if it
repeats, restamp `last_action`, resample `global_cooldown` as
`3000 + rand % 3000` milliseconds, and put every remaining task back. -/
def Scheduler.process (s : Scheduler) (now rand : ℕ) : Scheduler × Option Task :=
  if now - s.last_action < s.global_cooldown then (s, none)
  else
    let tasks_to_run := s.queue.filter (fun t => decide (t.next_run ≤ now))
    let tasks_to_keep := s.queue.filter (fun t => !decide (t.next_run ≤ now))
    match tasks_to_run.getLast? with
    | none => ({ s with queue := tasks_to_keep }, none)
    | some task =>
        ({ queue := tasks_to_keep ++ Scheduler.reschedList task now ++ tasks_to_run.dropLast
           last_action := now
           global_cooldown := 3000 + rand % 3000 }, some task)

lemma Scheduler.process_spec (s : Scheduler) (now rand : ℕ) :
    (now - s.last_action < s.global_cooldown → s.process now rand = (s, none)) ∧
    ((s.process now rand).2 = none → (s.process now rand).1.queue = s.queue) ∧
    (∀ t, (s.process now rand).2 = some t →
      t ∈ s.queue ∧ t.next_run ≤ now ∧
      s.global_cooldown ≤ now - s.last_action ∧
      (s.process now rand).1.last_action = now ∧
      (s.process now rand).1.global_cooldown = 3000 + rand % 3000 ∧
      (∀ i, t.interval = some i →
        { t with next_run := now + i } ∈ (s.process now rand).1.queue) ∧
      ((s.process now rand).1.queue ++ [t]).Perm
        (s.queue ++ Scheduler.reschedList t now)) := by
  by_cases hgate : now - s.last_action < s.global_cooldown
  · rw [Scheduler.process, if_pos hgate]
    refine ⟨fun _ => rfl, fun _ => rfl, fun t ht => ?_⟩
    cases ht
  · rcases hlast : (s.queue.filter (fun t => decide (t.next_run ≤ now))).getLast? with _ | t0
    · have hproc : s.process now rand =
          ({ s with queue := s.queue.filter (fun t => !decide (t.next_run ≤ now)) }, none) := by
        rw [Scheduler.process, if_neg hgate]
        simp only [hlast]
      refine ⟨fun h => absurd h hgate, fun _ => ?_, fun t ht => ?_⟩
      · rw [hproc]
        have hnil : s.queue.filter (fun t => decide (t.next_run ≤ now)) = [] := by
          cases hfil : s.queue.filter (fun t => decide (t.next_run ≤ now)) with
          | nil => rfl
          | cons a l =>
              rw [hfil] at hlast
              simp [List.getLast?] at hlast
        have hall := List.filter_eq_nil_iff.mp hnil
        exact List.filter_eq_self.mpr (fun a ha => by
          simp only [Bool.not_eq_eq_eq_not, Bool.not_true, decide_eq_false_iff_not]
          exact fun hle => (hall a ha) (by simpa using hle))
      · rw [hproc] at ht
        cases ht
    · have hproc : s.process now rand =
          ({ queue := s.queue.filter (fun t => !decide (t.next_run ≤ now)) ++
                Scheduler.reschedList t0 now ++
                (s.queue.filter (fun t => decide (t.next_run ≤ now))).dropLast
             last_action := now
             global_cooldown := 3000 + rand % 3000 }, some t0) := by
        rw [Scheduler.process, if_neg hgate]
        simp only [hlast]
      refine ⟨fun h => absurd h hgate, fun h => ?_, fun t ht => ?_⟩
      · rw [hproc] at h
        cases h
      · rw [hproc] at ht
        have ht0 : t = t0 := by
          cases ht
          rfl
        subst ht0
        have hmemrun : t ∈ s.queue.filter (fun a => decide (a.next_run ≤ now)) :=
          List.mem_of_getLast?_eq_some hlast
        have hmf := List.mem_filter.mp hmemrun
        have hmemq : t ∈ s.queue := hmf.1
        have hdue : t.next_run ≤ now := of_decide_eq_true hmf.2
        refine ⟨hmemq, hdue, le_of_not_lt hgate, by rw [hproc], by rw [hproc], ?_, ?_⟩
        · intro i hi
          rw [hproc]
          simp only [List.mem_append]
          left; right
          rw [Scheduler.reschedList, hi]
          exact List.mem_singleton.mpr rfl
        · rw [hproc]
          have hsplit : (s.queue.filter (fun a => decide (a.next_run ≤ now))).dropLast ++ [t] =
              s.queue.filter (fun a => decide (a.next_run ≤ now)) :=
            List.dropLast_append_getLast? t (Option.mem_def.mpr hlast)
          rw [List.append_assoc
                (s.queue.filter (fun a => !decide (a.next_run ≤ now)) ++
                  Scheduler.reschedList t now),
              hsplit, List.append_assoc]
          refine List.Perm.trans (List.Perm.append_left _ List.perm_append_comm) ?_
          rw [← List.append_assoc]
          refine List.Perm.append_right _ ?_
          exact List.perm_append_comm.trans
            (List.filter_append_perm (fun a => decide (a.next_run ≤ now)) s.queue)

/-- C7: on a scheduler tick, at most one task is executed (the return carries
an `Option Task`); any executed task was due and ran only because the global
cooldown window had elapsed since the last action; after an execution the
global cooldown is resampled into `[3000, 6000)` ms, a repeating task is
re-enqueued at `now + interval`, and a one-shot task is dropped (the
remaining queue plus the executed task is a permutation of the old queue). -/
theorem scheduler_tick_spec (s : Scheduler) (now rand : ℕ) (t : Task)
    (hex : (s.process now rand).2 = some t) :
    t ∈ s.queue ∧ t.next_run ≤ now ∧
    s.global_cooldown ≤ now - s.last_action ∧
    (s.process now rand).1.last_action = now ∧
    3000 ≤ (s.process now rand).1.global_cooldown ∧
    (s.process now rand).1.global_cooldown < 6000 ∧
    (∀ i, t.interval = some i →
      { t with next_run := now + i } ∈ (s.process now rand).1.queue) ∧
    (t.interval = none → ((s.process now rand).1.queue ++ [t]).Perm s.queue) := by
  have h := ((s.process_spec now rand).2.2 t hex)
  obtain ⟨hmem, hdue, hgate, hla, hgc, hre, hperm⟩ := h
  refine ⟨hmem, hdue, hgate, hla, ?_, ?_, hre, ?_⟩
  · rw [hgc]; exact Nat.le_add_right _ _
  · rw [hgc]
    have : rand % 3000 < 3000 := Nat.mod_lt _ (by norm_num)
    omega
  · intro hone
    have : Scheduler.reschedList t now = [] := by
      rw [Scheduler.reschedList, hone]
    rw [this, List.append_nil] at hperm
    exact hperm

/-- Witness scheduler state: one due repeating task, cooldown elapsed. -/
def witnessTask : Task :=
  { task_type := .Daily, next_run := 0, interval := some 100, manual := false }

/-- Witness scheduler: `witnessTask` queued, last action at 0, cooldown 5 ms. -/
def witnessScheduler : Scheduler :=
  { queue := [witnessTask], last_action := 0, global_cooldown := 5 }

/-- Witness for `scheduler_tick_spec`: at `now = 10` the due task executes. -/
theorem scheduler_tick_spec_witness :
    (witnessScheduler.process 10 0).2 = some witnessTask ∧
    (witnessTask ∈ witnessScheduler.queue ∧ witnessTask.next_run ≤ 10 ∧
      witnessScheduler.global_cooldown ≤ 10 - witnessScheduler.last_action ∧
      (witnessScheduler.process 10 0).1.last_action = 10 ∧
      3000 ≤ (witnessScheduler.process 10 0).1.global_cooldown ∧
      (witnessScheduler.process 10 0).1.global_cooldown < 6000 ∧
      (∀ i, witnessTask.interval = some i →
        { witnessTask with next_run := 10 + i } ∈ (witnessScheduler.process 10 0).1.queue) ∧
      (witnessTask.interval = none →
        ((witnessScheduler.process 10 0).1.queue ++ [witnessTask]).Perm
          witnessScheduler.queue)) :=
  ⟨by decide, scheduler_tick_spec witnessScheduler 10 0 witnessTask (by decide)⟩

/-- C10: `Scheduler::process` never loses a pending task — if the global
cooldown has not elapsed the state is returned unchanged with no execution;
if no task is executed the queue is unchanged; and if a task is executed the
new queue plus that task is a permutation of the old queue plus the task's
re-enqueue entry (so only an executed one-shot task ever leaves the queue
permanently). -/
theorem scheduler_no_task_lost (s : Scheduler) (now rand : ℕ) :
    (now - s.last_action < s.global_cooldown → s.process now rand = (s, none)) ∧
    ((s.process now rand).2 = none → (s.process now rand).1.queue = s.queue) ∧
    (∀ t, (s.process now rand).2 = some t →
      ((s.process now rand).1.queue ++ [t]).Perm
        (s.queue ++ Scheduler.reschedList t now)) := by
  obtain ⟨h1, h2, h3⟩ := s.process_spec now rand
  exact ⟨h1, h2, fun t ht => ((h3 t ht).2.2.2.2.2.2)⟩

/-- Witness for `scheduler_no_task_lost`: with the cooldown window still
open (`now = 1 < 5`), the state is returned unchanged, and in the executing
run at `now = 10` the queue is preserved up to the re-enqueued entry. -/
theorem scheduler_no_task_lost_witness :
    witnessScheduler.process 1 0 = (witnessScheduler, none) ∧
    ((witnessScheduler.process 10 0).1.queue ++ [witnessTask]).Perm
      (witnessScheduler.queue ++ Scheduler.reschedList witnessTask 10) :=
  ⟨(scheduler_no_task_lost witnessScheduler 1 0).1 (by decide),
   (scheduler_no_task_lost witnessScheduler 10 0).2.2 witnessTask (by decide)⟩

/-! ### Bot autonomy — src/engine/bot.rs (`Bot::run`, `BotState::Fishing` arm)

The autonomy decision of one orchestrator cycle (bot.rs lines 219–278) is
modelled as a pure function of the top recommendation, the `last_action`
pair, the clock, the parsed balance, the `danger_mode` flag, and whether the
`biome`/`coinflip` command descriptors are available (a failed command lookup
sends nothing).  Purchases transition to `Shopping` (where the purchase is
then executed); travel and coinflip are fire-and-continue; in every other
case the cycle falls through to the primary fishing action. -/

inductive BotState where
  | Idle
  | Fishing
  | Captcha
  | Break
  | Exploration
  | Selling
  | Shopping
deriving DecidableEq

/-- Outcome of the autonomy check of one cycle. -/
inductive Autonomy where
  | goShopping (rec : Recommendation)
  | fire (a : ActionType)
  | skip
deriving DecidableEq

/-- The `is_repeat` test: the last executed action compares equal (Rust
`PartialEq` on `ActionType`, i.e. variant and payload) to the top
recommendation's action and happened less than 15 seconds ago. -/
def is_repeat (best : Recommendation) (lastAction : Option (ActionType × ℕ))
    (now : ℕ) : Bool :=
  match lastAction with
  | some (lastType, lastTime) =>
      decide (lastType = best.action) && decide (now - lastTime < 15)
  | none => false

/-- The autonomy dispatch: skip on a repeat; otherwise buy (via `Shopping`)
when affordable, travel when the biome command is available, coinflip only
when `danger_mode` is set and the coinflip command is available; everything
else falls through. -/
def autonomyStep (best : Recommendation) (lastAction : Option (ActionType × ℕ))
    (now current_balance : ℕ) (danger_mode biome_cmd coinflip_cmd : Bool) : Autonomy :=
  if is_repeat best lastAction now then .skip
  else
    match best.action with
    | .BuyRod => if best.cost ≤ current_balance then .goShopping best else .skip
    | .BuyBoat => if best.cost ≤ current_balance then .goShopping best else .skip
    | .Travel => if biome_cmd then .fire .Travel else .skip
    | .Coinflip amount reason =>
        if danger_mode then
          (if coinflip_cmd then .fire (.Coinflip amount reason) else .skip)
        else .skip
    | _ => .skip

/-- The bot state after the autonomy check: `Shopping` on a purchase,
otherwise the cycle stays in `Fishing` and performs the primary action. -/
def nextStateAfterAutonomy : Autonomy → BotState
  | .goShopping _ => .Shopping
  | _ => .Fishing

/-- C8: if the top recommendation of `solve_next_move` triggers any
autonomous execution this cycle, then it was affordable
(`cost ≤ balance`) and it was not a repeat of the same `ActionType` within
the last 15 seconds; conversely a top recommendation equal to the last
executed action type less than 15 seconds ago is never executed. -/
theorem autonomy_affordable_not_repeat (o : Optimizer) (current_rod : Rod)
    (current_boat : Boat) (current_biome : Biome) (profile : Profile)
    (current_gold : ℕ) (best : Recommendation)
    (lastAction : Option (ActionType × ℕ)) (now current_balance : ℕ)
    (danger_mode biome_cmd coinflip_cmd : Bool)
    (hbest : (o.solve_next_move current_rod current_boat current_biome profile
        current_gold).head? = some best) :
    (autonomyStep best lastAction now current_balance danger_mode biome_cmd
        coinflip_cmd ≠ .skip →
      best.cost ≤ current_balance ∧
        ∀ lastTime, lastAction = some (best.action, lastTime) →
          15 ≤ now - lastTime) ∧
    (∀ lastTime, lastAction = some (best.action, lastTime) → now - lastTime < 15 →
      autonomyStep best lastAction now current_balance danger_mode biome_cmd
        coinflip_cmd = .skip) := by
  have hmem : best ∈ o.solve_next_move current_rod current_boat current_biome
      profile current_gold :=
    List.mem_of_mem_head? (Option.mem_def.mpr hbest)
  have hcases := solve_next_move_mem_spec o current_rod current_boat current_biome
    profile current_gold best hmem
  by_cases hrep : is_repeat best lastAction now
  · rw [autonomyStep, if_pos hrep]
    exact ⟨fun hne => absurd rfl hne, fun _ _ _ => rfl⟩
  · constructor
    · intro hne
      constructor
      · rw [autonomyStep, if_neg hrep] at hne
        rcases hcases with ⟨rod, _, _, _, hre⟩ | ⟨boat, _, _, _, hre⟩ |
          ⟨biome, _, _, _, hre⟩ | ⟨bet, reason, hre⟩ <;> subst hre
        · simp only [] at hne
          split at hne
          · next h => exact h
          · exact absurd rfl hne
        · simp only [] at hne
          split at hne
          · next h => exact h
          · exact absurd rfl hne
        · exact Nat.zero_le _
        · exact Nat.zero_le _
      · intro lastTime hla
        by_contra h15
        apply hrep
        rw [hla]
        simp only [is_repeat, Bool.and_eq_true, decide_eq_true_eq]
        exact ⟨trivial, lt_of_not_le (fun h => h15 h)⟩
    · intro lastTime hla hlt
      exfalso
      apply hrep
      rw [hla]
      simp only [is_repeat, Bool.and_eq_true, decide_eq_true_eq]
      exact ⟨trivial, hlt⟩

/-- Witness for `autonomy_affordable_not_repeat`: in the concrete witness
configuration the top recommendation is the Volcanic travel move and no last
action is recorded. -/
theorem autonomy_affordable_not_repeat_witness :
    ((witnessOptimizer.solve_next_move witnessRod witnessBoat .River zeroProfile
        0).head? = some witnessRec) ∧
    ((autonomyStep witnessRec none 100 0 true true true ≠ .skip →
        witnessRec.cost ≤ 0 ∧
          ∀ lastTime, (none : Option (ActionType × ℕ)) =
              some (witnessRec.action, lastTime) → 15 ≤ 100 - lastTime) ∧
      (∀ lastTime, (none : Option (ActionType × ℕ)) =
          some (witnessRec.action, lastTime) → 100 - lastTime < 15 →
        autonomyStep witnessRec none 100 0 true true true = .skip)) := by
  have hhead : (witnessOptimizer.solve_next_move witnessRod witnessBoat .River
      zeroProfile 0).head? = some witnessRec := by
    rw [witness_solve_next_move]
    rfl
  exact ⟨hhead, autonomy_affordable_not_repeat witnessOptimizer witnessRod witnessBoat
    .River zeroProfile 0 witnessRec none 100 0 true true true hhead⟩

/-- C9: with `danger_mode` disabled, a top Coinflip recommendation is never
executed — the autonomy check skips it and the cycle proceeds to the
ordinary primary (fishing) action. -/
theorem coinflip_requires_danger_mode (best : Recommendation)
    (lastAction : Option (ActionType × ℕ)) (now current_balance : ℕ)
    (biome_cmd coinflip_cmd : Bool) (amount : ℕ) (reason : String)
    (hact : best.action = .Coinflip amount reason) :
    autonomyStep best lastAction now current_balance false biome_cmd
        coinflip_cmd = .skip ∧
    nextStateAfterAutonomy (autonomyStep best lastAction now current_balance false
        biome_cmd coinflip_cmd) = .Fishing := by
  have hstep : autonomyStep best lastAction now current_balance false biome_cmd
      coinflip_cmd = .skip := by
    rw [autonomyStep]
    by_cases hrep : is_repeat best lastAction now
    · rw [if_pos hrep]
    · rw [if_neg hrep, hact]
      simp
  exact ⟨hstep, by rw [hstep]; rfl⟩

/-- A concrete Coinflip recommendation for the danger-mode witness. -/
def coinflipRec : Recommendation :=
  { action := .Coinflip 5 ("Bridge gap for Lava Rod")
    target_name := "Heads"
    cost := 0
    roi_seconds := 0 }

/-- Witness for `coinflip_requires_danger_mode` at a concrete Coinflip
recommendation. -/
theorem coinflip_requires_danger_mode_witness :
    coinflipRec.action = .Coinflip 5 ("Bridge gap for Lava Rod") ∧
    (autonomyStep coinflipRec none 100 1000 false true true = .skip ∧
      nextStateAfterAutonomy (autonomyStep coinflipRec none 100 1000 false true
        true) = .Fishing) :=
  ⟨rfl, coinflip_requires_danger_mode coinflipRec none 100 1000 true true 5
    ("Bridge gap for Lava Rod") rfl⟩

/-! ### Gateway — src/discord/gateway.rs (`Gateway::run_loop`)

`run_loop` connects, immediately sends the Identify payload built by
`get_identify_payload`, and then multiplexes a heartbeat deadline against the
inbound frame channel.  The deadline starts at connect time plus a default
`heartbeat_interval` of 41250 ms and is re-armed (with jitter) only when a
Hello (op 10) frame carrying `heartbeat_interval` arrives; `seq_num` starts
at `None` (the struct's stored `sequence`/`session_id` are never read).  We
model the loop as a transition function over an abstract event trace: a
`timeout` event is the heartbeat deadline elapsing, and a `recv` event is an
inbound frame (only the fields the loop reads are carried).  Every event
trace is realizable — in particular `timeout` before any Hello occurs
whenever the server takes longer than the default 41250 ms to deliver
Hello.  The output is the list of control messages written to the socket
(op 0 Dispatch frames are forwarded to the orchestrator channel, which is
not a socket write). -/

structure GatewayConfig where
  user_token : String
deriving DecidableEq

structure Gateway where
  config : GatewayConfig
  heartbeat_interval : ℕ
  sequence : Option ℕ
  session_id : Option String
deriving DecidableEq

/-- Control messages written to the websocket.  `Identify` is op 2 with the
`properties` triple; `Heartbeat` is op 1 carrying the last seen sequence (or
null).  `Resume` is modelled from the spec: spec s6 gives the Resume payload
`(token, session_id, seq)` (op 6), but no code under src/ ever
constructs it — the constructor exists so that its absence from the send
trace can be stated. -/
inductive SentMessage where
  | Identify (token os browser device : String)
  | Heartbeat (seq : Option ℕ)
  | Resume (token session_id : String) (seq : ℕ)
deriving DecidableEq

/-- `Gateway::get_identify_payload`: op 2, the configured token, and the
static `properties` object. -/
def Gateway.get_identify_payload (g : Gateway) : SentMessage :=
  .Identify g.config.user_token ("linux") ("autofishbot_rs") ("autofishbot_rs")

/-- An inbound frame, restricted to the fields `run_loop` reads: the opcode,
the optional sequence number `s`, and the `heartbeat_interval` field of `d`
(present only when `d` exists and the field parses as `u64`). -/
structure GatewayPayload where
  op : ℕ
  s : Option ℕ
  d_heartbeat_interval : Option ℕ
deriving DecidableEq

/-- One wakeup of the `select!` loop. -/
inductive LoopEvent where
  | timeout
  | recv (p : GatewayPayload)
deriving DecidableEq

/-- Whether an event is the receipt of a Hello (op 10) frame. -/
def LoopEvent.isHello : LoopEvent → Bool
  | .recv p => decide (p.op = 10)
  | .timeout => false

def SentMessage.isResume : SentMessage → Bool
  | .Resume _ _ _ => true
  | _ => false

/-- The mutable state of the `run_loop` select loop. -/
structure LoopState where
  heartbeat_interval : ℕ
  seq_num : Option ℕ
deriving DecidableEq

/-- Initial loop state: the hardcoded 41250 ms default interval and no
sequence (the `Gateway` struct's stored fields are not consulted). -/
def initLoopState : LoopState :=
  { heartbeat_interval := 41250, seq_num := none }

/-- One iteration of the `select!` loop: a timeout sends a Heartbeat with the
current `seq_num` and re-arms the deadline; an inbound frame first updates
`seq_num` from `s`, then op 10 updates `heartbeat_interval` (and re-arms the
deadline with jitter), op 0 is forwarded downstream, and everything else is
ignored — none of which writes to the socket. -/
def runLoopStep (st : LoopState) : LoopEvent → LoopState × List SentMessage
  | .timeout => (st, [.Heartbeat st.seq_num])
  | .recv p =>
      let st := match p.s with
        | some s => { st with seq_num := some s }
        | none => st
      if p.op = 10 then
        match p.d_heartbeat_interval with
        | some i => ({ st with heartbeat_interval := i }, [])
        | none => (st, [])
      else (st, [])

/-- Concatenated socket writes produced while folding the event trace. -/
def runLoopSendsAux : LoopState → List LoopEvent → List SentMessage
  | _, [] => []
  | st, e :: es =>
      let r := runLoopStep st e
      r.2 ++ runLoopSendsAux r.1 es

/-- The full socket-write trace of `Gateway::run_loop` on an event trace:
the Identify payload is written unconditionally before the loop starts. -/
def Gateway.run_loop_sends (g : Gateway) (events : List LoopEvent) : List SentMessage :=
  g.get_identify_payload :: runLoopSendsAux initLoopState events

lemma runLoopSendsAux_no_resume (st : LoopState) (events : List LoopEvent) :
    (runLoopSendsAux st events).all (fun m => !m.isResume) = true := by
  induction events generalizing st with
  | nil => rfl
  | cons e es ih =>
      rw [runLoopSendsAux]
      rw [List.all_append]
      refine (Bool.and_eq_true _ _).mpr ⟨?_, ih _⟩
      cases e with
      | timeout => rfl
      | recv p =>
          rw [runLoopStep]
          split_ifs
          · cases p.d_heartbeat_interval <;> rfl
          · rfl

/-- A gateway holding a stored `(session_id, sequence)` pair. -/
def storedSessionGateway : Gateway :=
  { config := { user_token := "token" }
    heartbeat_interval := 41250
    sequence := some 42
    session_id := some ("abc") }

/-- C1 counterexample: even with a stored `(session_id, sequence)` pair, the
first control message `run_loop` sends is the fresh Identify — a Resume is
never sent. -/
theorem resume_never_sent_counterexample :
    storedSessionGateway.session_id = some ("abc") ∧
    storedSessionGateway.sequence = some 42 ∧
    (storedSessionGateway.run_loop_sends []).head? =
      some (.Identify ("token") ("linux") ("autofishbot_rs") ("autofishbot_rs")) ∧
    (storedSessionGateway.run_loop_sends []).all (fun m => !m.isResume) = true :=
  ⟨rfl, rfl, rfl, rfl⟩

/-- C1 (amended): on every connect, for every event trace and any stored
session state, the first control message `run_loop` sends is the fresh
Identify payload (written before any inbound frame is processed), and no
Resume message is ever sent. -/
theorem first_message_always_identify (g : Gateway) (events : List LoopEvent) :
    (g.run_loop_sends events).head? = some g.get_identify_payload ∧
    (g.run_loop_sends events).all (fun m => !m.isResume) = true := by
  refine ⟨rfl, ?_⟩
  rw [Gateway.run_loop_sends, List.all_cons]
  exact (Bool.and_eq_true _ _).mpr ⟨rfl, runLoopSendsAux_no_resume _ _⟩

/-- A fresh gateway with no stored session. -/
def freshGateway : Gateway :=
  { config := { user_token := "token" }
    heartbeat_interval := 41250
    sequence := none
    session_id := none }

/-- C2 failing run: if the initial 41250 ms heartbeat deadline elapses before
any inbound frame (event trace `[timeout]`, which contains no Hello), the
loop writes a Heartbeat with a null sequence — a Heartbeat is sent before
any Hello has been received. -/
theorem heartbeat_sent_before_hello :
    ([LoopEvent.timeout].all (fun e => !e.isHello)) = true ∧
    freshGateway.run_loop_sends [.timeout] =
      [freshGateway.get_identify_payload, .Heartbeat none] :=
  ⟨rfl, rfl⟩

end Autofishbot
